import Mathlib

/-!
Verification of the on-chain payment-gating protocol of the
marketplace-service-template repository.

The HTTP endpoint handlers (the request gates) are embedded from the
TypeScript sources (the legacy Google-Maps gate and the Google-SERP gate of
the service routers, the multi-service router of src/service.ts, the
trending router, and the LinkedIn enrichment routes).  The payment core
itself (src/payment.ts: extractPayment, verifyPayment with its replay
guard, and build402Response) is not part of the provided sources — only its
callers, its test-suite mock of the Base RPC, and the specification
describe it — so those functions are modelled from the specification and
are marked as such in their doc comments.

JSON response bodies are represented by a small inductive Json type so that
theorems can speak about the presence, absence and shape of individual
fields of a response.
-/

/-- JSON values, used to model the response bodies the gates produce. -/
inductive Json where
  | null : Json
  | bool : Bool → Json
  | num : Rat → Json
  | str : String → Json
  | arr : List Json → Json
  | obj : List (String × Json) → Json
deriving Repr

/-- First-match lookup in a JSON object's field list. -/
def lookupField : List (String × Json) → String → Option Json
  | [], _ => none
  | (k, v) :: rest, key => if k = key then some v else lookupField rest key

/-- Field lookup on a JSON object; none on non-objects. -/
def Json.field : Json → String → Option Json
  | .obj fields, key => lookupField fields key
  | _, _ => none

/-- Two-level field lookup, for nested objects such as price.amount. -/
def Json.field2 (j : Json) (k1 k2 : String) : Option Json :=
  (j.field k1).bind (fun inner => inner.field k2)

/-- Whether a JSON value is a string. -/
def Json.isStr : Json → Bool
  | .str _ => true
  | _ => false

/-- The two supported payment networks. -/
inductive Network where
  | solana : Network
  | base : Network
deriving Repr, DecidableEq

/-- The wire name of a network, as it appears in headers and bodies. -/
def Network.toId : Network → String
  | .solana => "solana"
  | .base => "base"

/-- A payment reference extracted from an inbound request. -/
structure PaymentRef where
  txHash : String
  network : Network
deriving Repr, DecidableEq

/-- ASCII lower-casing of one character. -/
def lowerChar (c : Char) : Char :=
  if 'A' ≤ c ∧ c ≤ 'Z' then Char.ofNat (c.toNat + 32) else c

/-- ASCII lower-casing of a string. -/
def lowerStr (s : String) : String :=
  String.mk (s.data.map lowerChar)

/-- ASCII upper-casing of one character. -/
def upperChar (c : Char) : Char :=
  if 'a' ≤ c ∧ c ≤ 'z' then Char.ofNat (c.toNat - 32) else c

/-- ASCII upper-casing of a string. -/
def upperStr (s : String) : String :=
  String.mk (s.data.map upperChar)

/-- Strip leading and trailing whitespace. -/
def trimStr (s : String) : String :=
  String.mk (((s.data.dropWhile Char.isWhitespace).reverse.dropWhile Char.isWhitespace).reverse)

/-- Whether the first list starts with the second. -/
def listStartsWith : List Char → List Char → Bool
  | _, [] => true
  | [], _ :: _ => false
  | a :: as, b :: bs => a = b && listStartsWith as bs

/-- Whether some tail of the first list starts with the second. -/
def anyTailStartsWith : List Char → List Char → Bool
  | [], pat => listStartsWith [] pat
  | a :: as, pat => listStartsWith (a :: as) pat || anyTailStartsWith as pat

/-- Substring containment test. -/
def containsSub (s pat : String) : Bool :=
  anyTailStartsWith s.data pat.data

/-- Case-insensitive (canonical) address equality, as required for EVM
addresses by the verifier contract. -/
def canonEqAddr (a b : String) : Bool :=
  lowerStr a == lowerStr b

/-- USDC contract address on Base, pinned by the repository's test suite. -/
def USDC_BASE : String := "0x833589fCD6eDb6E08f4c7C32D4f71b54bdA02913"

/-- Canonical ERC-20 Transfer event signature hash, pinned by the test
suite. -/
def TRANSFER_TOPIC : String :=
  "0xddf252ad1be2c89b69c2b068fc378daa952ba7f163c4a11628f55a4df523b3ef"

/-- Modelled from the spec: the USDC mint address configured for the Solana
adapter (src/payment.ts is not in the provided sources; the spec fixes only
that a per-network USDC asset identifier is configured). -/
def USDC_SOLANA_MINT : String := "EPjFWdd5AufqSSqeM2qN1xzybapC8G4wEGGkZwyTDt1v"

/-- The configured USDC asset identifier for each network. -/
def expectedAssetFor : Network → String
  | .base => USDC_BASE
  | .solana => USDC_SOLANA_MINT

/-- Value of a hexadecimal digit. -/
def hexDigitVal (c : Char) : Option Nat :=
  if '0' ≤ c ∧ c ≤ '9' then some (c.toNat - '0'.toNat)
  else if 'a' ≤ c ∧ c ≤ 'f' then some (c.toNat - 'a'.toNat + 10)
  else if 'A' ≤ c ∧ c ≤ 'F' then some (c.toNat - 'A'.toNat + 10)
  else none

/-- Big-endian accumulation of hex digits. -/
def hexToNatCore : List Char → Nat → Option Nat
  | [], acc => some acc
  | c :: cs, acc =>
    match hexDigitVal c with
    | some v => hexToNatCore cs (acc * 16 + v)
    | none => none

/-- Parse a 0x-prefixed (or bare) hex string as a natural number. -/
def parseHexNat (s : String) : Option Nat :=
  let body :=
    match s.data with
    | '0' :: 'x' :: rest => rest
    | other => other
  if body.isEmpty then none else hexToNatCore body 0

/-- Value of a decimal digit. -/
def digitVal (c : Char) : Option Nat :=
  if '0' ≤ c ∧ c ≤ '9' then some (c.toNat - '0'.toNat) else none

/-- Big-endian accumulation of decimal digits. -/
def decToNatCore : List Char → Nat → Option Nat
  | [], acc => some acc
  | c :: cs, acc =>
    match digitVal c with
    | some v => decToNatCore cs (acc * 10 + v)
    | none => none

/-- Parse a decimal natural number; none on empty or non-digit input. -/
def parseDecNat (s : String) : Option Nat :=
  if s.isEmpty then none else decToNatCore s.data 0

/-- One EVM log entry of a transaction receipt, as returned by
eth_getTransactionReceipt and mocked by the repository's tests. -/
structure EvmLog where
  address : String
  topics : List String
  data : String
deriving Repr

/-- An EVM transaction receipt: status flag and logs. -/
structure EvmReceipt where
  status : String
  logs : List EvmLog
deriving Repr

/-- A normalized transfer effect reported by a chain adapter. -/
structure TransferEffect where
  recipient : String
  asset : String
  amountRaw : Nat
deriving Repr, DecidableEq

/-- The chain-adapter error taxonomy of the spec. -/
inductive AdapterError where
  | notFound : AdapterError
  | rpcError : AdapterError
  | unconfirmed : AdapterError
  | reverted : AdapterError
  | malformed : AdapterError
deriving Repr, DecidableEq

/-- The verification error string surfaced for each adapter failure. -/
def adapterErrorString : AdapterError → String
  | .notFound => "NotFound"
  | .rpcError => "RpcError"
  | .unconfirmed => "Unconfirmed"
  | .reverted => "Reverted"
  | .malformed => "Malformed"

/-- Modelled from the spec: decoding of one receipt log by the Base/EVM
chain adapter of the missing src/payment.ts.  A log qualifies when its
address is the configured USDC contract, its first topic is the ERC-20
Transfer signature, and topics and data have the expected fixed widths; the
recipient is the right-most 20 bytes of the third topic and the amount is
the data word as a big-endian integer. -/
def decodeTransferLog (log : EvmLog) : Option TransferEffect :=
  if canonEqAddr log.address USDC_BASE then
    match log.topics with
    | [t0, _t1, t2] =>
      if lowerStr t0 == lowerStr TRANSFER_TOPIC ∧ t2.data.length = 66 ∧ log.data.data.length = 66 then
        match parseHexNat log.data with
        | some amt =>
          some { recipient := String.mk ('0' :: 'x' :: (t2.data.drop 26).map lowerChar)
                 asset := lowerStr USDC_BASE
                 amountRaw := amt }
        | none => none
      else none
    | _ => none
  else none

/-- Modelled from the spec: the Base/EVM chain adapter fetchTransferEffect
of the missing src/payment.ts.  A null receipt is NotFound, status 0x0 is
Reverted, a receipt with no qualifying Transfer log is Malformed; among
several qualifying logs the one whose recipient matches the expected
recipient is picked, and NotFound is reported when none matches. -/
def fetchTransferEffectBase (receipt : Option EvmReceipt)
    (expectedRecipient : String) : Except AdapterError TransferEffect :=
  match receipt with
  | none => .error .notFound
  | some r =>
    if r.status = "0x0" then .error .reverted
    else
      match r.logs.filterMap decodeTransferLog with
      | [] => .error .malformed
      | [e] => .ok e
      | es =>
        match es.find? (fun e => canonEqAddr e.recipient expectedRecipient) with
        | some e => .ok e
        | none => .error .notFound

/-- USDC uses 6 decimal places on both supported chains. -/
def USDC_DECIMALS : Nat := 6

/-- Scale a raw integer token amount to its decimal value. -/
def rawToDecimal (raw : Nat) : Rat :=
  (raw : Rat) / ((10 : Rat) ^ USDC_DECIMALS)

/-- The result of one payment-verification attempt. -/
structure VerificationResult where
  valid : Bool
  amount : Option Rat
  error : Option String
deriving Repr

/-- Modelled from the spec: the acceptance rule of the verifier in the
missing src/payment.ts — accept a transfer effect exactly when the
recipient canonically equals the expected recipient, the asset equals the
configured asset, and the decimal amount is at least the required minimum;
each rejection carries its distinguishing error string.  The required
minimum is given in raw micro-USDC units; by rawToDecimal_lt_iff the raw
comparison coincides with the spec's comparison of scaled decimals. -/
def verifyEffect (effect : TransferEffect) (expectedRecipient expectedAsset : String)
    (minMicro : Nat) : VerificationResult :=
  if canonEqAddr effect.recipient expectedRecipient = false then
    { valid := false, amount := none, error := some "WrongRecipient" }
  else if canonEqAddr effect.asset expectedAsset = false then
    { valid := false, amount := none, error := some "WrongAsset" }
  else if effect.amountRaw < minMicro then
    { valid := false, amount := some (rawToDecimal effect.amountRaw)
      error := some "InsufficientAmount" }
  else
    { valid := true, amount := some (rawToDecimal effect.amountRaw), error := none }

/-- The replay guard's process-wide state: the set of already accepted
(network, reference) pairs, kept as a list. -/
abbrev ReplayState := List (Network × String)

/-- The outcome of one call to the payment verifier: the verification
result, the updated replay state, and whether the chain was queried. -/
structure VerifyOutcome where
  result : VerificationResult
  state : ReplayState
  chainQueried : Bool
deriving Repr

/-- Modelled from the spec: verifyPayment of the missing src/payment.ts —
replay check first (an already recorded reference short-circuits to
AlreadyUsed without querying the chain), then the chain adapter's outcome
is verified; every adapter failure becomes a valid:false result carrying
the adapter's error string, and a reference is recorded exactly when its
verification succeeds.  The function is total: no input makes it throw.
The chain adapter's outcome for the claimed reference is passed in as the
chain argument. -/
def verifyPayment (s : ReplayState) (ref : PaymentRef)
    (chain : Except AdapterError TransferEffect)
    (expectedRecipient : String) (minMicro : Nat) : VerifyOutcome :=
  if (ref.network, ref.txHash) ∈ s then
    { result := { valid := false, amount := none, error := some "AlreadyUsed" }
      state := s, chainQueried := false }
  else
    match chain with
    | .error e =>
      { result := { valid := false, amount := none, error := some (adapterErrorString e) }
        state := s, chainQueried := true }
    | .ok effect =>
      let r := verifyEffect effect expectedRecipient (expectedAssetFor ref.network) minMicro
      { result := r
        state := if r.valid then (ref.network, ref.txHash) :: s else s
        chainQueried := true }

/-- Drop trailing zero characters. -/
def stripTrailingZeros (s : String) : String :=
  String.mk ((s.data.reverse.dropWhile (fun c => c = '0')).reverse)

/-- Left-pad a string with zeros to the given width. -/
def padLeftZeros (s : String) (n : Nat) : String :=
  String.mk (List.replicate (n - s.data.length) '0' ++ s.data)

/-- Decimal string of a micro-USDC amount, without trailing zeros: 5000
becomes "0.005", 100000 becomes "0.1". -/
def decimalString (micro : Nat) : String :=
  let intPart := micro / 10 ^ USDC_DECIMALS
  let fracPart := micro % 10 ^ USDC_DECIMALS
  if fracPart = 0 then toString intPart
  else toString intPart ++ "." ++ stripTrailingZeros (padLeftZeros (toString fracPart) USDC_DECIMALS)

/-- Modelled from the spec: build402Response of the missing src/payment.ts,
following the spec's wire contract for the 402 challenge — status 402, the
resource path, the price as a decimal string with the USDC asset, the
message "Payment required", the endpoint's output schema, and one recipient
address per supported network.  The callers pass a single wallet address,
used as the recipient on both networks. -/
def build402Response (resource description : String) (priceMicro : Nat)
    (walletAddress : String) (outputSchema : Json) : Json :=
  Json.obj [
    ("status", Json.num 402),
    ("resource", Json.str resource),
    ("description", Json.str description),
    ("price", Json.obj [
      ("amount", Json.str (decimalString priceMicro)),
      ("asset", Json.str "USDC")]),
    ("message", Json.str "Payment required"),
    ("outputSchema", outputSchema),
    ("recipients", Json.obj [
      ("solana", Json.str walletAddress),
      ("base", Json.str walletAddress)])]

/-- An inbound HTTP request: header and query-parameter lists. -/
structure HttpRequest where
  headers : List (String × String)
  query : List (String × String)
deriving Repr

/-- Case-insensitive header lookup. -/
def headerLookup (headers : List (String × String)) (name : String) : Option String :=
  (headers.find? (fun h => lowerStr h.fst == lowerStr name)).map Prod.snd

/-- Query-parameter lookup. -/
def queryParam (req : HttpRequest) (name : String) : Option String :=
  (req.query.find? (fun p => p.fst == name)).map Prod.snd

/-- Parse a network name from the payment-network header. -/
def parseNetwork (s : String) : Option Network :=
  if lowerStr s == "solana" then some .solana
  else if lowerStr s == "base" then some .base
  else none

/-- Modelled from the spec: extractPayment of the missing src/payment.ts.
The reference is carried in the X-Payment-Signature (or Payment-Signature)
header and the network in X-Payment-Network — the exact header names are
pinned by the repository's CORS allow-list and test suite.  A missing,
empty or malformed header yields none (the no-payment state); the function
is total and never raises. -/
def extractPayment (req : HttpRequest) : Option PaymentRef :=
  let sig :=
    match headerLookup req.headers "X-Payment-Signature" with
    | some s => some s
    | none => headerLookup req.headers "Payment-Signature"
  match sig with
  | none => none
  | some tx =>
    if tx.isEmpty then none
    else
      match headerLookup req.headers "X-Payment-Network" with
      | none => none
      | some n =>
        match parseNetwork n with
        | some net => some { txHash := tx, network := net }
        | none => none

/-- An HTTP response: status code and JSON body. -/
structure HttpResponse where
  status : Nat
  body : Json
deriving Repr

/-- Outcome of the caller-supplied business-logic handler: either the
fields of its JSON result, or a thrown error message. -/
inductive HandlerOutcome where
  | ok : List (String × Json) → HandlerOutcome
  | throws : String → HandlerOutcome
deriving Repr

/-- The result of running a request gate: the HTTP response, the replay
state afterwards, and whether the chain was queried. -/
structure GateResult where
  resp : HttpResponse
  state : ReplayState
  chainQueried : Bool
deriving Repr

/-- JSON value of an optional error string (null when absent). -/
def optStrJson : Option String → Json
  | some s => Json.str s
  | none => Json.null

/-- JSON value of an optional decimal amount (null when absent). -/
def optRatJson : Option Rat → Json
  | some q => Json.num q
  | none => Json.null

/-- Settlement metadata attached to paid success responses, exactly as the
service routers build it: txHash, network, the verified amount, and
settled: true. -/
def settlementJson (payment : PaymentRef) (vr : VerificationResult) : Json :=
  Json.obj [
    ("txHash", Json.str payment.txHash),
    ("network", Json.str payment.network.toId),
    ("amount", optRatJson vr.amount),
    ("settled", Json.bool true)]

/-- Price of the legacy Google-Maps /run endpoint (0.005 USDC) in
micro-USDC. -/
def MAPS_PRICE_MICRO : Nat := 5000

/-- Description string of the multi-scraper service configuration. -/
def MAPS_DESCRIPTION : String :=
  "A unified scraping suite for Job Market Intelligence, Review Monitoring, and Social Profile data. Powered by mobile proxies to bypass anti-bot systems."

/-- Output schema advertised by the legacy Google-Maps /run endpoint. -/
def mapsOutputSchema : Json :=
  Json.obj [
    ("endpoints", Json.obj [
      ("/jobs", Json.str "Get job listings from Indeed/LinkedIn"),
      ("/reviews", Json.str "Get reviews from Yelp/Trustpilot"),
      ("/social", Json.str "Get social profile data from Reddit/Twitter"),
      ("/maps", Json.str "Get business data from Google Maps")]),
    ("payment", Json.str "All endpoints cost $0.005 USDC per call")]

/-- True when the limit query parameter is present but not a positive
integer. -/
def badLimitParam (req : HttpRequest) : Bool :=
  match queryParam req "limit" with
  | none => false
  | some l =>
    match parseDecNat l with
    | none => true
    | some n => n = 0

/-- The 402 body of a failed verification on the legacy Google-Maps /run
endpoint: error, the verifier's reason, and a hint. -/
def mapsVerifyFailedBody (vr : VerificationResult) : Json :=
  Json.obj [
    ("error", Json.str "Payment verification failed"),
    ("reason", optStrJson vr.error),
    ("hint", Json.str "Ensure the transaction is confirmed and sends the correct USDC amount to the recipient wallet.")]

/-- The part of the legacy Google-Maps /run gate that runs after payment
verification: reject invalid verifications with 402, then validate the
query, location and limit parameters (400), then run the handler — a throw
becomes a 502 with only error, message and hint, and a success becomes a
200 carrying proxy info and settlement metadata. -/
def mapsRunPostVerify (req : HttpRequest) (payment : PaymentRef)
    (vr : VerificationResult) (proxyCountry : String)
    (handler : HandlerOutcome) : HttpResponse :=
  if vr.valid then
    match queryParam req "query" with
    | none =>
      { status := 400
        body := Json.obj [
          ("error", Json.str "Missing required parameter: query"),
          ("hint", Json.str "Provide a search query like ?query=plumbers&location=Austin+TX"),
          ("example", Json.str "/api/run?query=restaurants&location=New+York+City&limit=20")] }
    | some _ =>
      match queryParam req "location" with
      | none =>
        { status := 400
          body := Json.obj [
            ("error", Json.str "Missing required parameter: location"),
            ("hint", Json.str "Provide a location like ?query=plumbers&location=Austin+TX"),
            ("example", Json.str "/api/run?query=restaurants&location=New+York+City&limit=20")] }
      | some _ =>
        if badLimitParam req then
          { status := 400
            body := Json.obj [
              ("error", Json.str "Invalid limit parameter: must be a positive integer")] }
        else
          match handler with
          | .throws msg =>
            { status := 502
              body := Json.obj [
                ("error", Json.str "Service execution failed"),
                ("message", Json.str msg),
                ("hint", Json.str "Google Maps may be temporarily blocking requests. Try again in a few minutes.")] }
          | .ok fields =>
            { status := 200
              body := Json.obj (fields ++ [
                ("proxy", Json.obj [
                  ("country", Json.str proxyCountry),
                  ("type", Json.str "mobile")]),
                ("payment", settlementJson payment vr)]) }
  else
    { status := 402, body := mapsVerifyFailedBody vr }

/-- The legacy Google-Maps /run gate: require WALLET_ADDRESS (500), issue
the 402 challenge when no payment is presented, verify the payment
(updating the replay state), and hand over to the post-verification
phase. -/
def mapsRunGate (envWallet : Option String) (s : ReplayState) (req : HttpRequest)
    (chain : Except AdapterError TransferEffect) (proxyCountry : String)
    (handler : HandlerOutcome) : GateResult :=
  match envWallet with
  | none =>
    { resp := { status := 500
                body := Json.obj [("error", Json.str "Service misconfigured: WALLET_ADDRESS not set")] }
      state := s, chainQueried := false }
  | some wallet =>
    match extractPayment req with
    | none =>
      { resp := { status := 402
                  body := build402Response "/api/run" MAPS_DESCRIPTION MAPS_PRICE_MICRO wallet mapsOutputSchema }
        state := s, chainQueried := false }
    | some payment =>
      let vo := verifyPayment s payment chain wallet MAPS_PRICE_MICRO
      { resp := mapsRunPostVerify req payment vo.result proxyCountry handler
        state := vo.state
        chainQueried := vo.chainQueried }

/-- Hard-coded recipient address the multi-service router falls back to
when WALLET_ADDRESS is unset. -/
def FALLBACK_WALLET : String := "6eUdVwsPArTxwVqEARYGCh4S2qwW2zCs7jSEDRpxydnv"

/-- Wallet resolution of the multi-service endpoints: the WALLET_ADDRESS
environment variable, or the hard-coded fallback address when unset. -/
def resolveMultiWallet (envWallet : Option String) : String :=
  envWallet.getD FALLBACK_WALLET

/-- Price of the multi-service Google-Maps endpoints (0.005 USDC) in
micro-USDC. -/
def MULTI_MAPS_PRICE_MICRO : Nat := 5000

/-- Description of the multi-service Google-Maps /run endpoint. -/
def MULTI_MAPS_DESCRIPTION : String :=
  "Extract structured business data from Google Maps: name, address, phone, website, email, hours, ratings, reviews, categories, and geocoordinates. Search by category + location with full pagination."

/-- Output schema advertised by the multi-service Google-Maps /run
endpoint. -/
def mapsMultiOutputSchema : Json :=
  Json.obj [
    ("input", Json.obj [
      ("query", Json.str "string — Search query/category (required)"),
      ("location", Json.str "string — Location to search (required)"),
      ("limit", Json.str "number — Max results to return (default: 20, max: 100)"),
      ("pageToken", Json.str "string — Pagination token for next page (optional)")]),
    ("output", Json.obj [
      ("businesses", Json.str "BusinessData[]"),
      ("totalFound", Json.str "number"),
      ("nextPageToken", Json.str "string | null")])]

/-- The multi-service Google-Maps /run gate of src/service.ts: wallet falls
back to the hard-coded address, missing payment yields the 402 challenge,
failed verification yields a 402 whose body has only an error field (no
reason), then query and location are validated together and the handler
runs, with settlement metadata on success.  The scraped fields and the
meta block are supplied by the handler outcome. -/
def multiRunGate (envWallet : Option String) (s : ReplayState) (req : HttpRequest)
    (chain : Except AdapterError TransferEffect)
    (handler : HandlerOutcome) : GateResult :=
  let wallet := resolveMultiWallet envWallet
  match extractPayment req with
  | none =>
    { resp := { status := 402
                body := build402Response "/api/run" MULTI_MAPS_DESCRIPTION MULTI_MAPS_PRICE_MICRO wallet mapsMultiOutputSchema }
      state := s, chainQueried := false }
  | some payment =>
    let vo := verifyPayment s payment chain wallet MULTI_MAPS_PRICE_MICRO
    { resp :=
        if vo.result.valid then
          match queryParam req "query", queryParam req "location" with
          | some _, some _ =>
            (match handler with
             | .throws msg =>
               { status := 502
                 body := Json.obj [
                   ("error", Json.str "Maps scraping failed"),
                   ("details", Json.str msg)] }
             | .ok fields =>
               { status := 200
                 body := Json.obj (fields ++ [("payment", settlementJson payment vo.result)]) })
          | _, _ =>
            { status := 400
              body := Json.obj [("error", Json.str "Missing required parameters: query and location")] }
        else
          { status := 402
            body := Json.obj [("error", Json.str "Payment verification failed")] }
      state := vo.state
      chainQueried := vo.chainQueried }

/-- Price of the trending endpoint (0.10 USDC) in micro-USDC. -/
def TRENDING_PRICE_MICRO : Nat := 100000

/-- Description of the trending endpoint. -/
def TRENDING_DESCRIPTION : String :=
  "Trending Topics API: fetch what is trending right now on Reddit, web, YouTube, and Twitter/X. Returns engagement-ranked topics with source URLs."

/-- Output schema advertised by the trending endpoint. -/
def trendingOutputSchema : Json :=
  Json.obj [
    ("input", Json.obj [
      ("country", Json.str "string (optional, default: US) - ISO country code for web/YouTube/Twitter trends"),
      ("platforms", Json.str "string (optional, default: reddit,web) - comma-separated platform list: reddit, web, youtube, twitter"),
      ("limit", Json.str "number (optional, default: 20, max: 50) - topics per platform")]),
    ("output", Json.obj [
      ("country", Json.str "string"),
      ("platforms", Json.str "string[]"),
      ("trending", Json.str "TrendingItem[]"),
      ("generated_at", Json.str "string (ISO 8601)")])]

/-- Country-code normalization of the trending router: two ASCII letters
uppercased, defaulting to US otherwise. -/
def parseCountry (countryParam : Option String) : String :=
  match countryParam with
  | none => "US"
  | some s =>
    let n := upperStr (trimStr s)
    if n.data.length = 2 ∧ n.data.all Char.isUpper then n else "US"

/-- The scraped content of a trending response, produced by the
platform-fetch phase the claims do not constrain. -/
structure TrendingData where
  trending : Json
  platforms : Json
  generatedAt : String
  proxyIp : Json
  proxyCountry : String
deriving Repr

/-- The trending gate of src (GET /api/trending): a missing wallet is a
500, a tripped rate limit is a 429, a missing payment is the 402 challenge,
a failed verification is a 402 with error and reason, and a verified
payment yields a 200 whose payment.amount is the verified amount (the
configured price when the verifier reported none) as a JSON number and
settled: true. -/
def trendingGate (walletAddress : String) (rateLimited : Bool) (retryAfter : Nat)
    (s : ReplayState) (req : HttpRequest)
    (chain : Except AdapterError TransferEffect) (td : TrendingData) : GateResult :=
  if walletAddress.isEmpty then
    { resp := { status := 500
                body := Json.obj [("error", Json.str "Service misconfigured: WALLET_ADDRESS not set")] }
      state := s, chainQueried := false }
  else if rateLimited then
    { resp := { status := 429
                body := Json.obj [
                  ("error", Json.str "Rate limit exceeded for /api/trending"),
                  ("retryAfter", Json.num retryAfter)] }
      state := s, chainQueried := false }
  else
    match extractPayment req with
    | none =>
      { resp := { status := 402
                  body := build402Response "/api/trending" TRENDING_DESCRIPTION TRENDING_PRICE_MICRO walletAddress trendingOutputSchema }
        state := s, chainQueried := false }
    | some payment =>
      let vo := verifyPayment s payment chain walletAddress TRENDING_PRICE_MICRO
      { resp :=
          if vo.result.valid then
            { status := 200
              body := Json.obj [
                ("country", Json.str (parseCountry (queryParam req "country"))),
                ("platforms", td.platforms),
                ("trending", td.trending),
                ("generated_at", Json.str td.generatedAt),
                ("meta", Json.obj [
                  ("proxy", Json.obj [
                    ("ip", td.proxyIp),
                    ("country", Json.str td.proxyCountry),
                    ("type", Json.str "mobile")])]),
                ("payment", Json.obj [
                  ("txHash", Json.str payment.txHash),
                  ("network", Json.str payment.network.toId),
                  ("amount", Json.num ((vo.result.amount).getD (rawToDecimal TRENDING_PRICE_MICRO))),
                  ("settled", Json.bool true)])] }
          else
            { status := 402
              body := Json.obj [
                ("error", Json.str "Payment verification failed"),
                ("reason", optStrJson vo.result.error)] }
        state := vo.state
        chainQueried := vo.chainQueried }

/-- Price of the LinkedIn person endpoint (0.03 USDC) in micro-USDC. -/
def LINKEDIN_PERSON_PRICE_MICRO : Nat := 30000

/-- Output schema advertised by the LinkedIn person endpoint. -/
def linkedinPersonSchema : Json :=
  Json.obj [
    ("input", Json.obj [
      ("url", Json.str "string — LinkedIn profile URL (required)")]),
    ("output", Json.obj [
      ("person", Json.str "LinkedInPerson — name, headline, company, education, skills"),
      ("meta", Json.str "proxy info")])]

/-- Whether a URL matches the linkedin.com/in/ profile pattern the route
requires. -/
def linkedinProfileUrlOk (url : String) : Bool :=
  containsSub url "linkedin.com/in/"

/-- The LinkedIn person gate of src/service.ts: unlike the multi-service
endpoints it has no wallet fallback — an unset WALLET_ADDRESS is a 500
"Service misconfigured" response.  Otherwise: 402 challenge without
payment, 402 with error and reason on failed verification, 400 on a
missing or invalid url parameter, then the scrape handler with settlement
metadata on success. -/
def linkedinPersonGate (envWallet : Option String) (s : ReplayState) (req : HttpRequest)
    (chain : Except AdapterError TransferEffect) (proxyCountry : String)
    (handler : HandlerOutcome) : GateResult :=
  match envWallet with
  | none =>
    { resp := { status := 500
                body := Json.obj [("error", Json.str "Service misconfigured: WALLET_ADDRESS not set")] }
      state := s, chainQueried := false }
  | some wallet =>
    match extractPayment req with
    | none =>
      { resp := { status := 402
                  body := build402Response "/api/linkedin/person" "LinkedIn Person Profile Enrichment" LINKEDIN_PERSON_PRICE_MICRO wallet linkedinPersonSchema }
        state := s, chainQueried := false }
    | some payment =>
      let vo := verifyPayment s payment chain wallet LINKEDIN_PERSON_PRICE_MICRO
      { resp :=
          if vo.result.valid then
            match queryParam req "url" with
            | none =>
              { status := 400
                body := Json.obj [
                  ("error", Json.str "Missing required parameter: url"),
                  ("example", Json.str "/api/linkedin/person?url=linkedin.com/in/username")] }
            | some url =>
              if linkedinProfileUrlOk url then
                match handler with
                | .throws msg =>
                  { status := 502
                    body := Json.obj [
                      ("error", Json.str "Profile enrichment failed"),
                      ("message", Json.str msg)] }
                | .ok fields =>
                  { status := 200
                    body := Json.obj [
                      ("person", Json.obj (fields ++ [
                        ("meta", Json.obj [
                          ("proxy", Json.obj [
                            ("country", Json.str proxyCountry),
                            ("type", Json.str "mobile")])])])),
                      ("payment", settlementJson payment vo.result)] }
              else
                { status := 400
                  body := Json.obj [
                    ("error", Json.str "Invalid LinkedIn profile URL"),
                    ("example", Json.str "linkedin.com/in/username")] }
          else
            { status := 402
              body := Json.obj [
                ("error", Json.str "Payment verification failed"),
                ("reason", optStrJson vo.result.error)] }
        state := vo.state
        chainQueried := vo.chainQueried }

/-- Lookup in an appended field list skips a prefix with no matching key. -/
theorem lookupField_append_of_none (xs ys : List (String × Json)) (key : String)
    (h : lookupField xs key = none) :
    lookupField (xs ++ ys) key = lookupField ys key := by
  induction xs with
  | nil => rfl
  | cons hd tl ih =>
    obtain ⟨k, v⟩ := hd
    by_cases hk : k = key
    · simp [lookupField, hk] at h
    · simp [lookupField, hk] at h ⊢
      exact ih h

/-- Scaling raw amounts to decimals is strictly monotone. -/
theorem rawToDecimal_lt_iff (a b : Nat) : rawToDecimal a < rawToDecimal b ↔ a < b := by
  unfold rawToDecimal
  rw [div_lt_div_iff_of_pos_right (by positivity)]
  exact_mod_cast Iff.rfl

/-- Scaling raw amounts to decimals is monotone. -/
theorem rawToDecimal_le_iff (a b : Nat) : rawToDecimal a ≤ rawToDecimal b ↔ a ≤ b := by
  constructor
  · intro h
    by_contra hab
    exact absurd ((rawToDecimal_lt_iff b a).mpr (Nat.lt_of_not_le hab)) (not_lt.mpr h)
  · intro h
    rcases Nat.lt_or_ge a b with hl | hg
    · exact le_of_lt ((rawToDecimal_lt_iff a b).mpr hl)
    · have : b = a := Nat.le_antisymm hg h
      subst this
      exact le_refl _

/-- An already recorded reference short-circuits to AlreadyUsed without a
chain query and without touching the state. -/
theorem verifyPayment_already_used (s : ReplayState) (ref : PaymentRef)
    (chain : Except AdapterError TransferEffect) (w : String) (m : Nat)
    (h : (ref.network, ref.txHash) ∈ s) :
    verifyPayment s ref chain w m =
      { result := { valid := false, amount := none, error := some "AlreadyUsed" }
        state := s, chainQueried := false } := by
  simp [verifyPayment, h]

/-- A fresh reference with a successful chain query is verified against the
effect, and recorded exactly when verification succeeds. -/
theorem verifyPayment_fresh_ok (s : ReplayState) (ref : PaymentRef)
    (effect : TransferEffect) (w : String) (m : Nat)
    (h : (ref.network, ref.txHash) ∉ s) :
    verifyPayment s ref (.ok effect) w m =
      { result := verifyEffect effect w (expectedAssetFor ref.network) m
        state :=
          if (verifyEffect effect w (expectedAssetFor ref.network) m).valid
          then (ref.network, ref.txHash) :: s else s
        chainQueried := true } := by
  simp [verifyPayment, h]

/-- A fresh reference with a failed chain query yields the adapter's error
string without touching the state. -/
theorem verifyPayment_fresh_error (s : ReplayState) (ref : PaymentRef)
    (e : AdapterError) (w : String) (m : Nat)
    (h : (ref.network, ref.txHash) ∉ s) :
    verifyPayment s ref (.error e) w m =
      { result := { valid := false, amount := none, error := some (adapterErrorString e) }
        state := s, chainQueried := true } := by
  simp [verifyPayment, h]

/-- The replay state never loses entries across a verification attempt. -/
theorem verifyPayment_state_mono (s : ReplayState) (ref : PaymentRef)
    (chain : Except AdapterError TransferEffect) (w : String) (m : Nat)
    (e : Network × String) (he : e ∈ s) :
    e ∈ (verifyPayment s ref chain w m).state := by
  unfold verifyPayment
  split
  · exact he
  · cases chain with
    | error _ => exact he
    | ok effect =>
      simp only
      split
      · exact List.mem_cons_of_mem _ he
      · exact he

/-- The replay state never loses entries across the legacy Google-Maps /run
gate. -/
theorem mapsRunGate_state_mono (envW : Option String) (s : ReplayState)
    (req : HttpRequest) (chain : Except AdapterError TransferEffect)
    (pc : String) (hnd : HandlerOutcome) (e : Network × String) (he : e ∈ s) :
    e ∈ (mapsRunGate envW s req chain pc hnd).state := by
  cases envW with
  | none => exact he
  | some wallet =>
    cases hx : extractPayment req with
    | none => simp [mapsRunGate, hx]; exact he
    | some payment =>
      simp only [mapsRunGate, hx]
      exact verifyPayment_state_mono s payment chain wallet _ e he

/-- A valid verification reports the scaled transferred amount. -/
theorem verifyEffect_valid_amount (effect : TransferEffect) (w a : String) (m : Nat)
    (h : (verifyEffect effect w a m).valid = true) :
    (verifyEffect effect w a m).amount = some (rawToDecimal effect.amountRaw) := by
  unfold verifyEffect at h ⊢
  split_ifs at h ⊢
  simp_all

/-- Wallet address used by the repository's test suite. -/
def testWallet : String := "0x1111111111111111111111111111111111111111"

/-- A concrete Base payment reference for concrete evaluations. -/
def testRef : PaymentRef := { txHash := "0x01", network := .base }

/-- A concrete paid request for the Google-Maps /run endpoints, with the
payment headers the test suite sends. -/
def testReq : HttpRequest :=
  { headers := [("X-Payment-Signature", "0x01"), ("X-Payment-Network", "base")]
    query := [("query", "plumbers"), ("location", "Austin TX")] }

/-- A concrete transfer effect paying exactly the required 0.005 USDC to
the test wallet. -/
def testEffect : TransferEffect :=
  { recipient := testWallet, asset := USDC_BASE, amountRaw := 5000 }

/-- A concrete transfer effect one raw unit below the required amount. -/
def testEffectLow : TransferEffect :=
  { recipient := testWallet, asset := USDC_BASE, amountRaw := 4999 }

/-- C4: for every priced endpoint, a request carrying no payment reference
is answered with status 402 and the challenge document, whose price.amount
is exactly the configured decimal price string, whose message is "Payment
required", and whose recipients map carries an address for both supported
networks (solana and base); on the Google-Maps /run endpoint the price
string is "0.005". -/
theorem challenge_shape_C4 (wallet : String) (s : ReplayState) (req : HttpRequest)
    (chain : Except AdapterError TransferEffect) (pc : String) (hnd : HandlerOutcome)
    (hnp : extractPayment req = none) :
    ((mapsRunGate (some wallet) s req chain pc hnd).resp.status = 402 ∧
      (mapsRunGate (some wallet) s req chain pc hnd).resp.body =
        build402Response "/api/run" MAPS_DESCRIPTION MAPS_PRICE_MICRO wallet mapsOutputSchema) ∧
    (∀ (res desc : String) (p : Nat) (w : String) (sch : Json),
      (build402Response res desc p w sch).field2 "price" "amount" =
        some (Json.str (decimalString p)) ∧
      (build402Response res desc p w sch).field "message" =
        some (Json.str "Payment required") ∧
      (build402Response res desc p w sch).field2 "recipients" "solana" =
        some (Json.str w) ∧
      (build402Response res desc p w sch).field2 "recipients" "base" =
        some (Json.str w)) ∧
    decimalString MAPS_PRICE_MICRO = "0.005" := by
  refine ⟨?_, ?_, ?_⟩
  · simp [mapsRunGate, hnp]
  · intro res desc p w sch
    exact ⟨rfl, rfl, rfl, rfl⟩
  · rfl

/-- Concrete instance of the C4 challenge theorem on a request with no
payment headers. -/
theorem challenge_shape_C4_witness :
    extractPayment { headers := [], query := [] } = none ∧
    (mapsRunGate (some testWallet) [] { headers := [], query := [] }
      (.error .notFound) "US" (.ok [])).resp.status = 402 :=
  ⟨rfl, (challenge_shape_C4 testWallet [] { headers := [], query := [] }
    (.error .notFound) "US" (.ok []) rfl).1.1⟩

/-- The 32-byte zero-address topic used by the test suite's mocked Transfer
log. -/
def zeroAddrTopic : String :=
  "0x0000000000000000000000000000000000000000000000000000000000000000"

/-- The test wallet padded to a 32-byte topic, as the test suite builds
it. -/
def testWalletTopic : String :=
  "0x0000000000000000000000001111111111111111111111111111111111111111"

/-- The raw amount word for 0.005 USDC (5000 raw units), pinned by the test
suite. -/
def USDC_AMOUNT_0_005 : String :=
  "0x0000000000000000000000000000000000000000000000000000000000001388"

/-- The raw amount word one unit below 0.005 USDC (4999 raw units). -/
def USDC_AMOUNT_BELOW : String :=
  "0x0000000000000000000000000000000000000000000000000000000000001387"

/-- The successful Base receipt the test suite mocks, with a single USDC
Transfer log to the test wallet carrying the given amount word. -/
def baseTransferReceipt (amountWord : String) : EvmReceipt :=
  { status := "0x1"
    logs := [{ address := USDC_BASE
               topics := [TRANSFER_TOPIC, zeroAddrTopic, testWalletTopic]
               data := amountWord }] }

/-- C2: on a fresh reference, verification accepts exactly when the
transfer's recipient canonically equals the expected recipient, the asset
is the configured USDC asset of the network, and the raw amount scaled by
6 decimals reaches the required minimum decimal amount; a raw amount one
unit below the required raw amount is rejected.  On the test suite's
mocked Base receipt, the amount word for 5000 raw units verifies and the
word for 4999 raw units does not. -/
theorem verify_acceptance_rule_C2
    (s : ReplayState) (ref : PaymentRef) (effect : TransferEffect) (w : String)
    (requiredMicro : Nat)
    (hnew : (ref.network, ref.txHash) ∉ s) :
    ((verifyPayment s ref (.ok effect) w requiredMicro).result.valid = true ↔
      (canonEqAddr effect.recipient w = true ∧
       canonEqAddr effect.asset (expectedAssetFor ref.network) = true ∧
       rawToDecimal requiredMicro ≤ rawToDecimal effect.amountRaw)) ∧
    (canonEqAddr effect.recipient w = true →
      canonEqAddr effect.asset (expectedAssetFor ref.network) = true →
      effect.amountRaw + 1 = requiredMicro →
      (verifyPayment s ref (.ok effect) w requiredMicro).result.valid = false) ∧
    ((fetchTransferEffectBase (some (baseTransferReceipt USDC_AMOUNT_0_005)) testWallet).toOption.map
      (fun e => (verifyEffect e testWallet (expectedAssetFor .base) 5000).valid)
        = some true) ∧
    ((fetchTransferEffectBase (some (baseTransferReceipt USDC_AMOUNT_BELOW)) testWallet).toOption.map
      (fun e => (verifyEffect e testWallet (expectedAssetFor .base) 5000).valid)
        = some false) := by
  refine ⟨?_, ?_, by decide, by decide⟩
  · rw [verifyPayment_fresh_ok s ref effect w _ hnew]
    show (verifyEffect effect w (expectedAssetFor ref.network) requiredMicro).valid = true ↔ _
    rw [rawToDecimal_le_iff]
    unfold verifyEffect
    cases h1 : canonEqAddr effect.recipient w
    · simp [h1]
    · cases h2 : canonEqAddr effect.asset (expectedAssetFor ref.network)
      · simp [h1, h2]
      · by_cases h3 : effect.amountRaw < requiredMicro
        · simp [h1, h2, h3, Nat.not_le.mpr h3]
        · simp [h1, h2, h3, Nat.not_lt.mp h3]
  · intro h1 h2 hamt
    rw [verifyPayment_fresh_ok s ref effect w _ hnew]
    show (verifyEffect effect w (expectedAssetFor ref.network) requiredMicro).valid = false
    have h3 : effect.amountRaw < requiredMicro := by omega
    unfold verifyEffect
    simp [h1, h2, h3]

/-- Concrete instance of the C2 acceptance rule: an exact 0.005 USDC
transfer verifies, one raw unit less does not. -/
theorem verify_acceptance_rule_C2_witness :
    (testRef.network, testRef.txHash) ∉ ([] : ReplayState) ∧
    (verifyPayment [] testRef (.ok testEffect) testWallet 5000).result.valid = true ∧
    (verifyPayment [] testRef (.ok testEffectLow) testWallet 5000).result.valid = false := by
  have hnm : (testRef.network, testRef.txHash) ∉ ([] : ReplayState) := by simp
  refine ⟨hnm, ?_, ?_⟩
  · exact (verify_acceptance_rule_C2 [] testRef testEffect testWallet 5000 hnm).1.mpr
      ⟨by decide, by decide, le_refl _⟩
  · exact (verify_acceptance_rule_C2 [] testRef testEffectLow testWallet 5000 hnm).2.1
      (by decide) (by decide) (by decide)

/-- C1: presenting the same valid reference twice in sequence yields
exactly one accepted (HTTP 200) outcome on the Google-Maps /run gate: the
first request is accepted and records the (network, reference) pair, every
later request with the same pair short-circuits to an AlreadyUsed 402
without querying the chain and without changing the replay state, and a
recorded pair is never removed by any gate invocation. -/
theorem replay_at_most_once_C1
    (wallet : String) (s : ReplayState) (req : HttpRequest) (ref : PaymentRef)
    (effect : TransferEffect) (pc : String) (fields : List (String × Json))
    (q l : String)
    (hx : extractPayment req = some ref)
    (hnew : (ref.network, ref.txHash) ∉ s)
    (hvalid : (verifyEffect effect wallet (expectedAssetFor ref.network) MAPS_PRICE_MICRO).valid = true)
    (hq : queryParam req "query" = some q)
    (hl : queryParam req "location" = some l)
    (hlim : badLimitParam req = false) :
    (mapsRunGate (some wallet) s req (.ok effect) pc (.ok fields)).resp.status = 200 ∧
    (ref.network, ref.txHash) ∈ (mapsRunGate (some wallet) s req (.ok effect) pc (.ok fields)).state ∧
    (∀ (req2 : HttpRequest) (chain2 : Except AdapterError TransferEffect)
       (pc2 : String) (hnd2 : HandlerOutcome),
      extractPayment req2 = some ref →
      (mapsRunGate (some wallet) ((ref.network, ref.txHash) :: s) req2 chain2 pc2 hnd2).resp.status = 402 ∧
      (mapsRunGate (some wallet) ((ref.network, ref.txHash) :: s) req2 chain2 pc2 hnd2).resp.body.field "reason"
        = some (Json.str "AlreadyUsed") ∧
      (mapsRunGate (some wallet) ((ref.network, ref.txHash) :: s) req2 chain2 pc2 hnd2).chainQueried = false ∧
      (mapsRunGate (some wallet) ((ref.network, ref.txHash) :: s) req2 chain2 pc2 hnd2).state
        = (ref.network, ref.txHash) :: s) ∧
    (∀ (envW : Option String) (s0 : ReplayState) (req0 : HttpRequest)
       (chain0 : Except AdapterError TransferEffect) (pc0 : String)
       (hnd0 : HandlerOutcome) (e : Network × String),
      e ∈ s0 → e ∈ (mapsRunGate envW s0 req0 chain0 pc0 hnd0).state) := by
  have hvp : verifyPayment s ref (.ok effect) wallet MAPS_PRICE_MICRO =
      { result := verifyEffect effect wallet (expectedAssetFor ref.network) MAPS_PRICE_MICRO
        state := (ref.network, ref.txHash) :: s
        chainQueried := true } := by
    rw [verifyPayment_fresh_ok s ref effect wallet _ hnew]
    simp [hvalid]
  have hg1 : mapsRunGate (some wallet) s req (.ok effect) pc (.ok fields) =
      { resp := mapsRunPostVerify req ref
          (verifyEffect effect wallet (expectedAssetFor ref.network) MAPS_PRICE_MICRO) pc (.ok fields)
        state := (ref.network, ref.txHash) :: s
        chainQueried := true } := by
    simp [mapsRunGate, hx, hvp]
  refine ⟨?_, ?_, ?_, ?_⟩
  · rw [hg1]
    simp [mapsRunPostVerify, hvalid, hq, hl, hlim]
  · rw [hg1]
    exact List.mem_cons_self _ _
  · intro req2 chain2 pc2 hnd2 hx2
    have hmem : (ref.network, ref.txHash) ∈ (ref.network, ref.txHash) :: s :=
      List.mem_cons_self _ _
    have hvp2 := verifyPayment_already_used ((ref.network, ref.txHash) :: s) ref chain2
      wallet MAPS_PRICE_MICRO hmem
    have hg2 : mapsRunGate (some wallet) ((ref.network, ref.txHash) :: s) req2 chain2 pc2 hnd2 =
        { resp := mapsRunPostVerify req2 ref
            { valid := false, amount := none, error := some "AlreadyUsed" } pc2 hnd2
          state := (ref.network, ref.txHash) :: s
          chainQueried := false } := by
      simp [mapsRunGate, hx2, hvp2]
    rw [hg2]
    refine ⟨rfl, ?_, rfl, rfl⟩
    rfl
  · intro envW s0 req0 chain0 pc0 hnd0 e he
    exact mapsRunGate_state_mono envW s0 req0 chain0 pc0 hnd0 e he

/-- Concrete instance of the C1 replay guarantee: a paid request is
accepted once, and the identical retry is rejected as AlreadyUsed without
a chain query. -/
theorem replay_at_most_once_C1_witness :
    extractPayment testReq = some testRef ∧
    (mapsRunGate (some testWallet) [] testReq (.ok testEffect) "US" (.ok [])).resp.status = 200 ∧
    (mapsRunGate (some testWallet) [(testRef.network, testRef.txHash)] testReq (.ok testEffect)
      "US" (.ok [])).resp.status = 402 ∧
    (mapsRunGate (some testWallet) [(testRef.network, testRef.txHash)] testReq (.ok testEffect)
      "US" (.ok [])).chainQueried = false := by
  have h := replay_at_most_once_C1 testWallet [] testReq testRef testEffect "US" []
    "plumbers" "Austin TX" (by decide) (by simp) (by decide) (by decide) (by decide) (by decide)
  refine ⟨by decide, h.1, ?_, ?_⟩
  · exact (h.2.2.1 testReq (.ok testEffect) "US" (.ok []) (by decide)).1
  · exact (h.2.2.1 testReq (.ok testEffect) "US" (.ok []) (by decide)).2.2.1

/-- A request with a valid payment but no query parameter, for concrete
evaluations of the parameter-validation phase. -/
def testReqNoQuery : HttpRequest :=
  { headers := [("X-Payment-Signature", "0x01"), ("X-Payment-Network", "base")]
    query := [] }

/-- C5 (amended): on a paid successful request, the 200 response carries
settlement metadata with the payment reference (txHash), the network name
("solana" or "base"), the verified amount as a JSON number — not a decimal
string — and a settled flag equal to true. -/
theorem settlement_metadata_C5
    (wallet : String) (s : ReplayState) (req : HttpRequest) (ref : PaymentRef)
    (effect : TransferEffect) (pc : String) (fields : List (String × Json))
    (q l : String)
    (hx : extractPayment req = some ref)
    (hnew : (ref.network, ref.txHash) ∉ s)
    (hvalid : (verifyEffect effect wallet (expectedAssetFor ref.network) MAPS_PRICE_MICRO).valid = true)
    (hq : queryParam req "query" = some q)
    (hl : queryParam req "location" = some l)
    (hlim : badLimitParam req = false)
    (hfields : lookupField fields "payment" = none) :
    (mapsRunGate (some wallet) s req (.ok effect) pc (.ok fields)).resp.status = 200 ∧
    (mapsRunGate (some wallet) s req (.ok effect) pc (.ok fields)).resp.body.field2 "payment" "txHash"
      = some (Json.str ref.txHash) ∧
    (mapsRunGate (some wallet) s req (.ok effect) pc (.ok fields)).resp.body.field2 "payment" "network"
      = some (Json.str ref.network.toId) ∧
    (ref.network.toId = "solana" ∨ ref.network.toId = "base") ∧
    (mapsRunGate (some wallet) s req (.ok effect) pc (.ok fields)).resp.body.field2 "payment" "amount"
      = some (Json.num (rawToDecimal effect.amountRaw)) ∧
    (mapsRunGate (some wallet) s req (.ok effect) pc (.ok fields)).resp.body.field2 "payment" "settled"
      = some (Json.bool true) := by
  have hvp : verifyPayment s ref (.ok effect) wallet MAPS_PRICE_MICRO =
      { result := verifyEffect effect wallet (expectedAssetFor ref.network) MAPS_PRICE_MICRO
        state := (ref.network, ref.txHash) :: s
        chainQueried := true } := by
    rw [verifyPayment_fresh_ok s ref effect wallet _ hnew]
    simp [hvalid]
  have hg1 : mapsRunGate (some wallet) s req (.ok effect) pc (.ok fields) =
      { resp := mapsRunPostVerify req ref
          (verifyEffect effect wallet (expectedAssetFor ref.network) MAPS_PRICE_MICRO) pc (.ok fields)
        state := (ref.network, ref.txHash) :: s
        chainQueried := true } := by
    simp [mapsRunGate, hx, hvp]
  have hresp : mapsRunPostVerify req ref
      (verifyEffect effect wallet (expectedAssetFor ref.network) MAPS_PRICE_MICRO) pc (.ok fields) =
      { status := 200
        body := Json.obj (fields ++ [
          ("proxy", Json.obj [("country", Json.str pc), ("type", Json.str "mobile")]),
          ("payment", settlementJson ref
            (verifyEffect effect wallet (expectedAssetFor ref.network) MAPS_PRICE_MICRO))]) } := by
    simp [mapsRunPostVerify, hvalid, hq, hl, hlim]
  have hpayfield : (Json.obj (fields ++ [
      ("proxy", Json.obj [("country", Json.str pc), ("type", Json.str "mobile")]),
      ("payment", settlementJson ref
        (verifyEffect effect wallet (expectedAssetFor ref.network) MAPS_PRICE_MICRO))])).field "payment"
      = some (settlementJson ref
          (verifyEffect effect wallet (expectedAssetFor ref.network) MAPS_PRICE_MICRO)) := by
    show lookupField _ "payment" = _
    rw [lookupField_append_of_none fields _ "payment" hfields]
    rfl
  have hamt := verifyEffect_valid_amount effect wallet (expectedAssetFor ref.network)
    MAPS_PRICE_MICRO hvalid
  refine ⟨?_, ?_, ?_, ?_, ?_, ?_⟩
  · rw [hg1, hresp]
  · rw [hg1]
    simp only [Json.field2, hresp, hpayfield, Option.bind_some]
    rfl
  · rw [hg1]
    simp only [Json.field2, hresp, hpayfield, Option.bind_some]
    rfl
  · cases ref.network with
    | solana => exact Or.inl rfl
    | base => exact Or.inr rfl
  · rw [hg1]
    simp only [Json.field2, hresp, hpayfield, Option.bind_some]
    show (settlementJson ref _).field "amount" = _
    simp [settlementJson, Json.field, lookupField, hamt, optRatJson]
  · rw [hg1]
    simp only [Json.field2, hresp, hpayfield, Option.bind_some]
    rfl

/-- Concrete instance of the amended C5 settlement metadata on a paid
request. -/
theorem settlement_metadata_C5_witness :
    extractPayment testReq = some testRef ∧
    (mapsRunGate (some testWallet) [] testReq (.ok testEffect) "US" (.ok [])).resp.body.field2
      "payment" "settled" = some (Json.bool true) :=
  ⟨by decide,
   (settlement_metadata_C5 testWallet [] testReq testRef testEffect "US" [] "plumbers" "Austin TX"
     (by decide) (by simp) (by decide) (by decide) (by decide) (by decide) rfl).2.2.2.2.2⟩

/-- C5 counterexample: on a concrete paid successful request the
settlement amount field is a JSON number, not a decimal string — the claim
that the verified amount is attached "as a decimal string" fails on the
code, whose response types declare the payment amount as a number. -/
theorem settlement_amount_not_string_C5_cex :
    (mapsRunGate (some testWallet) [] testReq (.ok testEffect) "US" (.ok [])).resp.status = 200 ∧
    ((mapsRunGate (some testWallet) [] testReq (.ok testEffect) "US" (.ok [])).resp.body.field2
      "payment" "amount").map Json.isStr = some false := by
  constructor
  · rfl
  · rfl

/-- C6 (amended): when verification succeeds and the handler throws, the
response is a 502 whose body carries only error, message and hint — it
does not report the payment as accepted or settled — while the reference
stays recorded, so a retry with the same reference is rejected as
AlreadyUsed without being re-verified against the chain. -/
theorem handler_failure_keeps_reference_C6
    (wallet : String) (s : ReplayState) (req : HttpRequest) (ref : PaymentRef)
    (effect : TransferEffect) (pc : String) (msg : String) (q l : String)
    (hx : extractPayment req = some ref)
    (hnew : (ref.network, ref.txHash) ∉ s)
    (hvalid : (verifyEffect effect wallet (expectedAssetFor ref.network) MAPS_PRICE_MICRO).valid = true)
    (hq : queryParam req "query" = some q)
    (hl : queryParam req "location" = some l)
    (hlim : badLimitParam req = false) :
    (mapsRunGate (some wallet) s req (.ok effect) pc (.throws msg)).resp.status = 502 ∧
    (mapsRunGate (some wallet) s req (.ok effect) pc (.throws msg)).resp.body.field "payment" = none ∧
    (mapsRunGate (some wallet) s req (.ok effect) pc (.throws msg)).resp.body.field "error"
      = some (Json.str "Service execution failed") ∧
    (ref.network, ref.txHash) ∈ (mapsRunGate (some wallet) s req (.ok effect) pc (.throws msg)).state ∧
    (∀ (req2 : HttpRequest) (chain2 : Except AdapterError TransferEffect)
       (pc2 : String) (hnd2 : HandlerOutcome),
      extractPayment req2 = some ref →
      (mapsRunGate (some wallet) ((ref.network, ref.txHash) :: s) req2 chain2 pc2 hnd2).resp.status = 402 ∧
      (mapsRunGate (some wallet) ((ref.network, ref.txHash) :: s) req2 chain2 pc2 hnd2).resp.body.field "reason"
        = some (Json.str "AlreadyUsed") ∧
      (mapsRunGate (some wallet) ((ref.network, ref.txHash) :: s) req2 chain2 pc2 hnd2).chainQueried = false) := by
  have hvp : verifyPayment s ref (.ok effect) wallet MAPS_PRICE_MICRO =
      { result := verifyEffect effect wallet (expectedAssetFor ref.network) MAPS_PRICE_MICRO
        state := (ref.network, ref.txHash) :: s
        chainQueried := true } := by
    rw [verifyPayment_fresh_ok s ref effect wallet _ hnew]
    simp [hvalid]
  have hg1 : mapsRunGate (some wallet) s req (.ok effect) pc (.throws msg) =
      { resp := mapsRunPostVerify req ref
          (verifyEffect effect wallet (expectedAssetFor ref.network) MAPS_PRICE_MICRO) pc (.throws msg)
        state := (ref.network, ref.txHash) :: s
        chainQueried := true } := by
    simp [mapsRunGate, hx, hvp]
  have hresp : mapsRunPostVerify req ref
      (verifyEffect effect wallet (expectedAssetFor ref.network) MAPS_PRICE_MICRO) pc (.throws msg) =
      { status := 502
        body := Json.obj [
          ("error", Json.str "Service execution failed"),
          ("message", Json.str msg),
          ("hint", Json.str "Google Maps may be temporarily blocking requests. Try again in a few minutes.")] } := by
    simp [mapsRunPostVerify, hvalid, hq, hl, hlim]
  refine ⟨?_, ?_, ?_, ?_, ?_⟩
  · rw [hg1, hresp]
  · rw [hg1, hresp]
    rfl
  · rw [hg1, hresp]
    rfl
  · rw [hg1]
    exact List.mem_cons_self _ _
  · intro req2 chain2 pc2 hnd2 hx2
    have hmem : (ref.network, ref.txHash) ∈ (ref.network, ref.txHash) :: s :=
      List.mem_cons_self _ _
    have hvp2 := verifyPayment_already_used ((ref.network, ref.txHash) :: s) ref chain2
      wallet MAPS_PRICE_MICRO hmem
    have hg2 : mapsRunGate (some wallet) ((ref.network, ref.txHash) :: s) req2 chain2 pc2 hnd2 =
        { resp := mapsRunPostVerify req2 ref
            { valid := false, amount := none, error := some "AlreadyUsed" } pc2 hnd2
          state := (ref.network, ref.txHash) :: s
          chainQueried := false } := by
      simp [mapsRunGate, hx2, hvp2]
    rw [hg2]
    exact ⟨rfl, rfl, rfl⟩

/-- Concrete instance of the amended C6 behavior with a throwing
handler. -/
theorem handler_failure_keeps_reference_C6_witness :
    extractPayment testReq = some testRef ∧
    (mapsRunGate (some testWallet) [] testReq (.ok testEffect) "US" (.throws "boom")).resp.status = 502 ∧
    (testRef.network, testRef.txHash)
      ∈ (mapsRunGate (some testWallet) [] testReq (.ok testEffect) "US" (.throws "boom")).state := by
  have h := handler_failure_keeps_reference_C6 testWallet [] testReq testRef testEffect "US" "boom"
    "plumbers" "Austin TX" (by decide) (by simp) (by decide) (by decide) (by decide) (by decide)
  exact ⟨by decide, h.1, h.2.2.2.1⟩

/-- C6 counterexample: on a concrete request whose payment verifies and
whose handler throws, the 502 body carries no payment object and no
settled flag whatsoever, so the response does not report the payment as
accepted and settled, contrary to the claim. -/
theorem handler_failure_no_settlement_C6_cex :
    (mapsRunGate (some testWallet) [] testReq (.ok testEffect) "US" (.throws "boom")).resp.status = 502 ∧
    (mapsRunGate (some testWallet) [] testReq (.ok testEffect) "US" (.throws "boom")).resp.body.field
      "payment" = none ∧
    (mapsRunGate (some testWallet) [] testReq (.ok testEffect) "US" (.throws "boom")).resp.body.field
      "settled" = none := by
  exact ⟨rfl, rfl, rfl⟩

/-- C9: the Google-Maps /run gate verifies payment before validating the
query parameter — a request with a valid fresh payment but no query
parameter reaches the chain (chainQueried), consumes the reference (it is
recorded in the replay state), and is then answered 400 with no settlement
metadata attached. -/
theorem verify_before_params_C9
    (wallet : String) (s : ReplayState) (req : HttpRequest) (ref : PaymentRef)
    (effect : TransferEffect) (pc : String) (hnd : HandlerOutcome)
    (hx : extractPayment req = some ref)
    (hnew : (ref.network, ref.txHash) ∉ s)
    (hvalid : (verifyEffect effect wallet (expectedAssetFor ref.network) MAPS_PRICE_MICRO).valid = true)
    (hq : queryParam req "query" = none) :
    (mapsRunGate (some wallet) s req (.ok effect) pc hnd).resp.status = 400 ∧
    (mapsRunGate (some wallet) s req (.ok effect) pc hnd).resp.body.field "error"
      = some (Json.str "Missing required parameter: query") ∧
    (mapsRunGate (some wallet) s req (.ok effect) pc hnd).resp.body.field "payment" = none ∧
    (mapsRunGate (some wallet) s req (.ok effect) pc hnd).chainQueried = true ∧
    (ref.network, ref.txHash) ∈ (mapsRunGate (some wallet) s req (.ok effect) pc hnd).state := by
  have hvp : verifyPayment s ref (.ok effect) wallet MAPS_PRICE_MICRO =
      { result := verifyEffect effect wallet (expectedAssetFor ref.network) MAPS_PRICE_MICRO
        state := (ref.network, ref.txHash) :: s
        chainQueried := true } := by
    rw [verifyPayment_fresh_ok s ref effect wallet _ hnew]
    simp [hvalid]
  have hg1 : mapsRunGate (some wallet) s req (.ok effect) pc hnd =
      { resp := mapsRunPostVerify req ref
          (verifyEffect effect wallet (expectedAssetFor ref.network) MAPS_PRICE_MICRO) pc hnd
        state := (ref.network, ref.txHash) :: s
        chainQueried := true } := by
    simp [mapsRunGate, hx, hvp]
  have hresp : mapsRunPostVerify req ref
      (verifyEffect effect wallet (expectedAssetFor ref.network) MAPS_PRICE_MICRO) pc hnd =
      { status := 400
        body := Json.obj [
          ("error", Json.str "Missing required parameter: query"),
          ("hint", Json.str "Provide a search query like ?query=plumbers&location=Austin+TX"),
          ("example", Json.str "/api/run?query=restaurants&location=New+York+City&limit=20")] } := by
    simp [mapsRunPostVerify, hvalid, hq]
  refine ⟨?_, ?_, ?_, ?_, ?_⟩
  · rw [hg1, hresp]
  · rw [hg1, hresp]
    rfl
  · rw [hg1, hresp]
    rfl
  · rw [hg1]
  · rw [hg1]
    exact List.mem_cons_self _ _

/-- Concrete instance of C9: valid payment, missing query parameter. -/
theorem verify_before_params_C9_witness :
    extractPayment testReqNoQuery = some testRef ∧
    (mapsRunGate (some testWallet) [] testReqNoQuery (.ok testEffect) "US" (.ok [])).resp.status = 400 ∧
    (mapsRunGate (some testWallet) [] testReqNoQuery (.ok testEffect) "US" (.ok [])).chainQueried = true := by
  have h := verify_before_params_C9 testWallet [] testReqNoQuery testRef testEffect "US" (.ok [])
    (by decide) (by simp) (by decide) (by decide)
  exact ⟨by decide, h.1, h.2.2.2.1⟩

/-- Concrete trending-phase data for witnesses. -/
def testTrendingData : TrendingData :=
  { trending := Json.arr [], platforms := Json.arr []
    generatedAt := "2026-02-18T00:00:00Z", proxyIp := Json.null, proxyCountry := "US" }

/-- C3: verifyPayment is total and represents every adapter failure as a
valid:false result carrying an error string, so the trending gate answers
every payment-verification failure with HTTP 402 and produces no 502
response in any state of its verification phase. -/
theorem verification_failures_402_C3
    (wallet : String) (rl : Bool) (ra : Nat) (s : ReplayState) (req : HttpRequest)
    (chain : Except AdapterError TransferEffect) (td : TrendingData) :
    ((trendingGate wallet rl ra s req chain td).resp.status ≠ 502) ∧
    (∀ ref, wallet.isEmpty = false → rl = false →
      extractPayment req = some ref →
      (verifyPayment s ref chain wallet TRENDING_PRICE_MICRO).result.valid = false →
      (trendingGate wallet rl ra s req chain td).resp.status = 402 ∧
      (trendingGate wallet rl ra s req chain td).resp.body.field "error"
        = some (Json.str "Payment verification failed")) ∧
    (∀ (s' : ReplayState) (ref' : PaymentRef) (e : AdapterError) (w' : String) (m' : Nat),
      (verifyPayment s' ref' (.error e) w' m').result.valid = false ∧
      ((verifyPayment s' ref' (.error e) w' m').result.error).isSome = true) := by
  refine ⟨?_, ?_, ?_⟩
  · unfold trendingGate
    split
    · simp
    · split
      · simp
      · cases hx : extractPayment req with
        | none => simp [hx]
        | some p =>
          simp only [hx]
          split
          · simp
          · simp
  · intro ref hw hrl hx hinvalid
    unfold trendingGate
    rw [hrl]
    simp only [hw, Bool.false_eq_true, if_false, if_neg, hx]
    rw [hinvalid]
    exact ⟨rfl, rfl⟩
  · intro s' ref' e w' m'
    unfold verifyPayment
    split
    · exact ⟨rfl, rfl⟩
    · exact ⟨rfl, rfl⟩

/-- Concrete instance of C3: an RPC failure on a fresh reference yields a
402 with an error body, not a 502. -/
theorem verification_failures_402_C3_witness :
    (verifyPayment [] testRef (.error .rpcError) testWallet TRENDING_PRICE_MICRO).result.valid = false ∧
    (trendingGate testWallet false 60 [] testReq (.error .rpcError) testTrendingData).resp.status = 402 := by
  have h := verification_failures_402_C3 testWallet false 60 [] testReq (.error .rpcError)
    testTrendingData
  exact ⟨by decide, (h.2.1 testRef (by decide) rfl (by decide) (by decide)).1⟩

/-- C7 counterexample: on the multi-service /run gate a failed
verification (here an underpayment) is answered with a JSON body that
carries an error field but no reason field at all, so not every failed
request carries both fields. -/
theorem missing_reason_field_C7_cex :
    (multiRunGate (some testWallet) [] testReq (.ok testEffectLow) (.ok [])).resp.status = 402 ∧
    (multiRunGate (some testWallet) [] testReq (.ok testEffectLow) (.ok [])).resp.body.field "error"
      = some (Json.str "Payment verification failed") ∧
    (multiRunGate (some testWallet) [] testReq (.ok testEffectLow) (.ok [])).resp.body.field "reason"
      = none := by
  exact ⟨rfl, rfl, rfl⟩

/-- C7 (amended): every failed verification response carries an error
field; the multi-service /run gate omits the reason field, while the
legacy Google-Maps /run gate attaches the verifier's error as reason, and
that reason is "AlreadyUsed" exactly for replays — every other
verification failure carries a different reason string — so replays are
distinguishable wherever the reason field is present. -/
theorem failure_reason_codes_C7 :
    (∀ (envW : Option String) (s : ReplayState) (req : HttpRequest)
       (chain : Except AdapterError TransferEffect) (hnd : HandlerOutcome) (ref : PaymentRef),
      extractPayment req = some ref →
      (verifyPayment s ref chain (resolveMultiWallet envW) MULTI_MAPS_PRICE_MICRO).result.valid = false →
      (multiRunGate envW s req chain hnd).resp.status = 402 ∧
      (multiRunGate envW s req chain hnd).resp.body.field "error"
        = some (Json.str "Payment verification failed") ∧
      (multiRunGate envW s req chain hnd).resp.body.field "reason" = none) ∧
    (∀ (wallet : String) (s : ReplayState) (req : HttpRequest)
       (chain : Except AdapterError TransferEffect) (pc : String) (hnd : HandlerOutcome)
       (ref : PaymentRef),
      extractPayment req = some ref →
      (verifyPayment s ref chain wallet MAPS_PRICE_MICRO).result.valid = false →
      (mapsRunGate (some wallet) s req chain pc hnd).resp.status = 402 ∧
      (mapsRunGate (some wallet) s req chain pc hnd).resp.body.field "error"
        = some (Json.str "Payment verification failed") ∧
      (mapsRunGate (some wallet) s req chain pc hnd).resp.body.field "reason"
        = some (optStrJson (verifyPayment s ref chain wallet MAPS_PRICE_MICRO).result.error)) ∧
    (∀ (s : ReplayState) (ref : PaymentRef) (chain : Except AdapterError TransferEffect)
       (w : String) (m : Nat),
      (ref.network, ref.txHash) ∈ s →
      (verifyPayment s ref chain w m).result.error = some "AlreadyUsed") ∧
    (∀ (s : ReplayState) (ref : PaymentRef) (chain : Except AdapterError TransferEffect)
       (w : String) (m : Nat),
      (ref.network, ref.txHash) ∉ s →
      (verifyPayment s ref chain w m).result.error ≠ some "AlreadyUsed") := by
  refine ⟨?_, ?_, ?_, ?_⟩
  · intro envW s req chain hnd ref hx hinvalid
    unfold multiRunGate
    simp only [hx]
    rw [hinvalid]
    exact ⟨rfl, rfl, rfl⟩
  · intro wallet s req chain pc hnd ref hx hinvalid
    have hg : mapsRunGate (some wallet) s req chain pc hnd =
        { resp := mapsRunPostVerify req ref
            (verifyPayment s ref chain wallet MAPS_PRICE_MICRO).result pc hnd
          state := (verifyPayment s ref chain wallet MAPS_PRICE_MICRO).state
          chainQueried := (verifyPayment s ref chain wallet MAPS_PRICE_MICRO).chainQueried } := by
      simp [mapsRunGate, hx]
    rw [hg]
    unfold mapsRunPostVerify
    rw [hinvalid]
    exact ⟨rfl, rfl, rfl⟩
  · intro s ref chain w m hmem
    rw [verifyPayment_already_used s ref chain w m hmem]
  · intro s ref chain w m hnm
    unfold verifyPayment
    rw [if_neg hnm]
    cases chain with
    | error e =>
      show some (adapterErrorString e) ≠ some "AlreadyUsed"
      cases e <;> decide
    | ok effect =>
      show (verifyEffect effect w (expectedAssetFor ref.network) m).error ≠ some "AlreadyUsed"
      unfold verifyEffect
      split_ifs <;> simp

/-- Concrete instance of the amended C7: the same underpayment carries a
reason on the legacy gate and no reason on the multi-service gate. -/
theorem failure_reason_codes_C7_witness :
    extractPayment testReq = some testRef ∧
    (mapsRunGate (some testWallet) [] testReq (.ok testEffectLow) "US" (.ok [])).resp.body.field
      "reason" = some (Json.str "InsufficientAmount") ∧
    (multiRunGate (some testWallet) [] testReq (.ok testEffectLow) (.ok [])).resp.body.field
      "reason" = none := by
  have h := failure_reason_codes_C7
  refine ⟨by decide, ?_, ?_⟩
  · have hb := (h.2.1 testWallet [] testReq (.ok testEffectLow) "US" (.ok []) testRef
      (by decide) (by decide)).2.2
    rw [hb]
    rfl
  · exact (h.1 (some testWallet) [] testReq (.ok testEffectLow) (.ok []) testRef
      (by decide) (by decide)).2.2

/-- C8: payment extraction is total — every request yields either no
payment or a reference, a request without extractable payment is answered
with the 402 challenge and no state change or chain query, an empty header
list yields the no-payment state, and so do an unknown network name and an
empty signature value. -/
theorem extraction_total_C8 :
    (∀ (req : HttpRequest),
      extractPayment req = none ∨ ∃ ref, extractPayment req = some ref) ∧
    (∀ (wallet : String) (s : ReplayState) (req : HttpRequest)
       (chain : Except AdapterError TransferEffect) (pc : String) (hnd : HandlerOutcome),
      extractPayment req = none →
      (mapsRunGate (some wallet) s req chain pc hnd).resp.status = 402 ∧
      (mapsRunGate (some wallet) s req chain pc hnd).resp.body =
        build402Response "/api/run" MAPS_DESCRIPTION MAPS_PRICE_MICRO wallet mapsOutputSchema ∧
      (mapsRunGate (some wallet) s req chain pc hnd).state = s ∧
      (mapsRunGate (some wallet) s req chain pc hnd).chainQueried = false) ∧
    (∀ (q : List (String × String)), extractPayment { headers := [], query := q } = none) ∧
    extractPayment { headers := [("X-Payment-Signature", "0x01"), ("X-Payment-Network", "ethereum")]
                     query := [] } = none ∧
    extractPayment { headers := [("X-Payment-Signature", ""), ("X-Payment-Network", "base")]
                     query := [] } = none := by
  refine ⟨?_, ?_, ?_, by decide, by decide⟩
  · intro req
    cases h : extractPayment req with
    | none => exact Or.inl rfl
    | some ref => exact Or.inr ⟨ref, rfl⟩
  · intro wallet s req chain pc hnd hnp
    simp [mapsRunGate, hnp]
  · intro q
    rfl

/-- Concrete instance of the C8 challenge behavior on a header-free
request. -/
theorem extraction_total_C8_witness :
    extractPayment { headers := [], query := [("query", "plumbers")] } = none ∧
    (mapsRunGate (some testWallet) [] { headers := [], query := [("query", "plumbers")] }
      (.error .rpcError) "US" (.ok [])).chainQueried = false :=
  ⟨rfl, (extraction_total_C8.2.1 testWallet [] { headers := [], query := [("query", "plumbers")] }
    (.error .rpcError) "US" (.ok []) rfl).2.2.2⟩

/-- A transfer effect paying the fallback recipient. -/
def testEffectFallback : TransferEffect :=
  { recipient := FALLBACK_WALLET, asset := USDC_BASE, amountRaw := 5000 }

/-- C10: with WALLET_ADDRESS unset, the multi-service gate does not fail:
it falls back to the hard-coded recipient address for the 402 challenge
recipients and verifies payments against that same fallback recipient,
whereas the LinkedIn person gate answers 500 Service misconfigured. -/
theorem wallet_fallback_C10 :
    resolveMultiWallet none = FALLBACK_WALLET ∧
    (∀ (s : ReplayState) (req : HttpRequest) (chain : Except AdapterError TransferEffect)
       (hnd : HandlerOutcome),
      extractPayment req = none →
      (multiRunGate none s req chain hnd).resp.status = 402 ∧
      (multiRunGate none s req chain hnd).resp.body.field2 "recipients" "solana"
        = some (Json.str FALLBACK_WALLET) ∧
      (multiRunGate none s req chain hnd).resp.body.field2 "recipients" "base"
        = some (Json.str FALLBACK_WALLET)) ∧
    (∀ (s : ReplayState) (req : HttpRequest) (ref : PaymentRef) (effect : TransferEffect)
       (fields : List (String × Json)) (q l : String),
      extractPayment req = some ref →
      (ref.network, ref.txHash) ∉ s →
      canonEqAddr effect.recipient FALLBACK_WALLET = true →
      canonEqAddr effect.asset (expectedAssetFor ref.network) = true →
      MULTI_MAPS_PRICE_MICRO ≤ effect.amountRaw →
      queryParam req "query" = some q →
      queryParam req "location" = some l →
      (multiRunGate none s req (.ok effect) (.ok fields)).resp.status = 200) ∧
    (∀ (s : ReplayState) (req : HttpRequest) (chain : Except AdapterError TransferEffect)
       (pc : String) (hnd : HandlerOutcome),
      (linkedinPersonGate none s req chain pc hnd).resp.status = 500 ∧
      (linkedinPersonGate none s req chain pc hnd).resp.body.field "error"
        = some (Json.str "Service misconfigured: WALLET_ADDRESS not set")) := by
  refine ⟨rfl, ?_, ?_, ?_⟩
  · intro s req chain hnd hnp
    unfold multiRunGate
    simp only [hnp]
    exact ⟨trivial, rfl, rfl⟩
  · intro s req ref effect fields q l hx hnew h1 h2 hamt hq hl
    have hvalid : (verifyEffect effect (resolveMultiWallet none) (expectedAssetFor ref.network)
        MULTI_MAPS_PRICE_MICRO).valid = true := by
      unfold verifyEffect
      rw [show resolveMultiWallet none = FALLBACK_WALLET from rfl]
      simp [h1, h2, Nat.not_lt.mpr hamt]
    have hvp : verifyPayment s ref (.ok effect) (resolveMultiWallet none) MULTI_MAPS_PRICE_MICRO =
        { result := verifyEffect effect (resolveMultiWallet none) (expectedAssetFor ref.network)
            MULTI_MAPS_PRICE_MICRO
          state := (ref.network, ref.txHash) :: s
          chainQueried := true } := by
      rw [verifyPayment_fresh_ok s ref effect _ _ hnew]
      simp [hvalid]
    unfold multiRunGate
    simp [hx, hvp, hvalid, hq, hl]
  · intro s req chain pc hnd
    exact ⟨rfl, rfl⟩

/-- Concrete instance of C10: a payment to the fallback recipient verifies
with WALLET_ADDRESS unset, and the LinkedIn person gate answers 500. -/
theorem wallet_fallback_C10_witness :
    (multiRunGate none [] testReq (.ok testEffectFallback) (.ok [])).resp.status = 200 ∧
    (linkedinPersonGate none [] testReq (.ok testEffectFallback) "US" (.ok [])).resp.status = 500 := by
  refine ⟨?_, (wallet_fallback_C10.2.2.2 [] testReq (.ok testEffectFallback) "US" (.ok [])).1⟩
  exact wallet_fallback_C10.2.2.1 [] testReq testRef testEffectFallback [] "plumbers" "Austin TX"
    (by decide) (by simp) (by decide) (by decide) (by decide) (by decide) (by decide)
